import Mathlib

/-!
# Verification of the dapx-backandrepl job-execution core

Shallow embedding, in Lean, of the scheduler, the job pipelines and the
remote-command assembly of the dapx-backandrepl control plane, together
with theorems settling the specification claims about them.  Every
definition is translated from the Python source under `backend/`; the
originating file and lines are named in each doc comment.
-/

namespace Dapx

/-! ## Scheduler next-fire map (`backend/services/scheduler.py`) -/

/-- Key of the in-memory next-fire map `self._jobs`.  The dispatch loop
`_check_and_run_jobs` keys the dict by the strings `sync_<id>`,
`host_backup_<id>` and `migration_<id>`, while `update_job_schedule` and
`remove_job` index it with the bare integer `job_id`; a Python `int` key
and a `str` key never compare equal, so the key space is the disjoint
sum modelled here. -/
inductive JobKey where
  | syncKey (id : Nat)
  | hostBackupKey (id : Nat)
  | migrationKey (id : Nat)
  | intKey (id : Nat)
deriving DecidableEq, Repr

/-- The `self._jobs` map: key to next-fire time (UTC instants modelled
as `Nat`). -/
abbrev SchedMap := List (JobKey × Nat)

/-- Python dict lookup (`k in d` / `d[k]`). -/
def schedLookup (m : SchedMap) (k : JobKey) : Option Nat :=
  match m with
  | [] => none
  | (k2, v) :: rest => if k2 = k then some v else schedLookup rest k

/-- Python dict assignment `d[k] = v`. -/
def schedSet (m : SchedMap) (k : JobKey) (v : Nat) : SchedMap :=
  match m with
  | [] => [(k, v)]
  | (k2, v2) :: rest => if k2 = k then (k, v) :: rest else (k2, v2) :: schedSet rest k v

/-- Python `del d[k]`, guarded by `k in d` in the source so absence is a
no-op. -/
def schedErase (m : SchedMap) (k : JobKey) : SchedMap :=
  match m with
  | [] => []
  | (k2, v2) :: rest => if k2 = k then schedErase rest k else (k2, v2) :: schedErase rest k

/-- `SchedulerService.update_job_schedule(job_id, schedule)`
(`scheduler.py`, lines 522-528): a non-empty cron string stores the next
fire time computed by `croniter` (passed in as `cronNext`, cron
evaluation being an external library) under the *integer* key `job_id`;
an empty one deletes the integer key. -/
def update_job_schedule (m : SchedMap) (job_id : Nat) (schedule : String) (cronNext : Nat) :
    SchedMap :=
  if schedule ≠ "" then schedSet m (JobKey.intKey job_id) cronNext
  else schedErase m (JobKey.intKey job_id)

/-- `SchedulerService.remove_job(job_id)` (`scheduler.py`, lines
530-533): deletes the integer key. -/
def remove_job (m : SchedMap) (job_id : Nat) : SchedMap :=
  schedErase m (JobKey.intKey job_id)

/-! ## Job records and pipeline state updates -/

/-- The columns of the `SyncJob` table (`backend/database.py`, lines
328-397) that the scheduler and the claims consult. -/
structure SyncJob where
  is_active : Bool
  schedule : Option String
  last_run : Option Nat
  last_status : Option String
  run_count : Nat
  error_count : Nat
  consecutive_failures : Nat
  retry_on_failure : Bool
  max_retries : Nat
  retry_delay_minutes : Nat
deriving DecidableEq, Repr

/-- One iteration of the sync-job block of
`SchedulerService._check_and_run_jobs` for a single job (`scheduler.py`,
lines 136-158).  The SQL filter keeps jobs with `is_active` and a
non-NULL, non-empty `schedule`; for a kept job the loop seeds the map
under the string key `sync_<id>` with `croniter(schedule, last_run or
now).get_next()` (passed as `cronAnchor`) when the key is absent, and
when `now >= next_run` it spawns `_execute_job` as a background task
and advances the key to `croniter(schedule, now).get_next()` (passed as
`cronAdvance`).  Returns whether a run was dispatched, and the updated
map.  No column other than `is_active` and `schedule` is consulted: in
particular neither `last_status` nor the retry-policy columns are
read. -/
def check_and_run_sync_job (m : SchedMap) (job_id : Nat) (job : SyncJob)
    (now cronAnchor cronAdvance : Nat) : Bool × SchedMap :=
  if job.is_active ∧ job.schedule ≠ none ∧ job.schedule ≠ some "" then
    let key := JobKey.syncKey job_id
    let m1 := match schedLookup m key with
      | none => schedSet m key cronAnchor
      | some _ => m
    match schedLookup m1 key with
    | some next_run =>
        if next_run ≤ now then (true, schedSet m1 key cronAdvance) else (false, m1)
    | none => (false, m1)
  else (false, m)

/-- The single-flight guard of the manual endpoint `run_migration_job`
(`backend/routers/migration_jobs.py`, lines 548-556): once the job is
loaded, `last_status == "running"` raises HTTP 400 with detail
`Job gia in esecuzione`; modelled as `Except`. -/
def run_migration_job_guard (last_status : Option String) : Except String Unit :=
  if last_status = some "running" then .error "Job gia in esecuzione" else .ok ()

/-- The states of `RecoveryJobStatus` (`backend/database.py`, lines
93-100). -/
inductive RecoveryJobStatus where
  | pending
  | backing_up
  | restoring
  | registering
  | completed
  | failed
deriving DecidableEq, Repr

/-- The guard of the manual endpoint `run_recovery_job`
(`backend/routers/recovery_jobs.py`, lines 713-723): the trigger is
rejected with HTTP 400 `Job gia in esecuzione` exactly when
`current_status` is `backing_up`, `restoring` or `registering`;
otherwise the task is started in the background. -/
def run_recovery_job_guard (current_status : RecoveryJobStatus) : Except String Unit :=
  if current_status = .backing_up ∨ current_status = .restoring ∨
      current_status = .registering then
    .error "Job gia in esecuzione"
  else .ok ()

/-- Outcome of one `migration_service.migrate_vm` invocation as
discriminated by `execute_migration_job_task`. -/
inductive MigOutcome where
  | confirmationNeeded
  | succeeded
  | failed
deriving DecidableEq, Repr

/-- The columns of `MigrationJob` updated by
`execute_migration_job_task`. -/
structure MigrationJob where
  last_status : Option String
  run_count : Nat
  error_count : Nat
  consecutive_failures : Nat
deriving DecidableEq, Repr

/-- Job-record update of `execute_migration_job_task`
(`backend/routers/migration_jobs.py`, lines 216-288 and the exception
handler at 351-354): a `requires_confirmation` result returns without
updating the job; success sets `last_status="success"`, increments
`run_count` and zeroes `consecutive_failures`; failure (and the
exception path) sets `last_status="failed"` and increments
`error_count` and `consecutive_failures`. -/
def execute_migration_job_task (job : MigrationJob) (outcome : MigOutcome) : MigrationJob :=
  match outcome with
  | .confirmationNeeded => job
  | .succeeded =>
      { job with
          last_status := some "success"
          run_count := job.run_count + 1
          consecutive_failures := 0 }
  | .failed =>
      { job with
          last_status := some "failed"
          run_count := job.run_count + 1
          error_count := job.error_count + 1
          consecutive_failures := job.consecutive_failures + 1 }

/-- Phase outcome of one `execute_recovery_job_task` run. -/
inductive RecoveryOutcome where
  | backupFailed
  | restoreFailed
  | completed
deriving DecidableEq, Repr

/-- The columns of `RecoveryJob` updated by
`execute_recovery_job_task`. -/
structure RecoveryJob where
  current_status : RecoveryJobStatus
  last_status : Option String
  run_count : Nat
  error_count : Nat
  consecutive_failures : Nat
deriving DecidableEq, Repr

/-- Job-record update of `execute_recovery_job_task`
(`backend/routers/recovery_jobs.py`, lines 333-339, 437-443 and
471-479): a failed backup or restore phase sets
`current_status=failed`, `last_status="failed"` and increments
`error_count` and `consecutive_failures`; completion sets
`current_status=completed`, `last_status="success"`, zeroes
`consecutive_failures` and increments `run_count`. -/
def execute_recovery_job_task (job : RecoveryJob) (outcome : RecoveryOutcome) : RecoveryJob :=
  match outcome with
  | .backupFailed =>
      { job with
          current_status := .failed
          last_status := some "failed"
          error_count := job.error_count + 1
          consecutive_failures := job.consecutive_failures + 1 }
  | .restoreFailed =>
      { job with
          current_status := .failed
          last_status := some "failed"
          error_count := job.error_count + 1
          consecutive_failures := job.consecutive_failures + 1 }
  | .completed =>
      { job with
          current_status := .completed
          last_status := some "success"
          consecutive_failures := 0
          run_count := job.run_count + 1 }

/-- Job-record update of `SchedulerService._execute_job`, the ZFS-sync
pipeline driver (`scheduler.py`, lines 271-297): `run_count` is always
incremented; success sets `last_status="success"`; failure sets
`last_status="failed"` and increments `error_count`.
`consecutive_failures` is never written on this path. -/
def scheduler_execute_sync_job (job : SyncJob) (success : Bool) : SyncJob :=
  if success then
    { job with last_status := some "success", run_count := job.run_count + 1 }
  else
    { job with
        last_status := some "failed"
        run_count := job.run_count + 1
        error_count := job.error_count + 1 }

/-- The columns of `HostBackupJob` updated by the host-config backup
execution paths. -/
structure HostBackupJob where
  current_status : Option String
  last_status : Option String
  run_count : Nat
  error_count : Nat
  consecutive_failures : Nat
deriving DecidableEq, Repr

/-- Job-record update of `SchedulerService._execute_host_backup_job`
(`scheduler.py`, lines 362-424): `run_count` is incremented when the
run starts; success sets `current_status="completed"` and
`last_status="success"`; failure sets both to failed and increments
`error_count`.  `consecutive_failures` is never written on this path,
nor in the manual endpoint `run_host_backup_job` of
`backend/routers/host_backup.py` (lines 234-355). -/
def execute_host_backup_job (job : HostBackupJob) (success : Bool) : HostBackupJob :=
  if success then
    { job with
        current_status := some "completed"
        last_status := some "success"
        run_count := job.run_count + 1 }
  else
    { job with
        current_status := some "failed"
        last_status := some "failed"
        run_count := job.run_count + 1
        error_count := job.error_count + 1 }

/-! ## Migration copy pipeline (`backend/services/migration_service.py`) -/

/-- A remote effect issued by the migration copy pipeline. -/
inductive MigAction where
  | remoteCmd (host cmd : String)
  | wait (seconds : Nat)
deriving DecidableEq, Repr

/-- Result of the destination-conflict phase. -/
inductive ConflictResult where
  | requiresConfirmation (existing_vm_id : Nat)
  | destroyFailed
  | proceed
deriving DecidableEq, Repr

/-- `qm` for QEMU guests, `pct` for LXC, as chosen throughout
`migration_service.py`. -/
def guestCmd (vm_type : String) : String := if vm_type = "qemu" then "qm" else "pct"

/-- The destination-conflict phase of
`MigrationService._copy_vm_with_backup` (`migration_service.py`, lines
312-381).  After `<qm|pct> status <target_vmid>` on the destination
reports that the guest exists (`targetExists`): without
`force_overwrite` the phase returns a `requires_confirmation` result
carrying `existing_vm_id`, issuing no further command; with
`force_overwrite` it stops the guest (`--skiplock`), sleeps 3 seconds,
destroys it with `--purge --skiplock`, and proceeds only when the
destroy succeeds (`destroyOk`).  When the guest does not exist the
phase proceeds directly. -/
def copy_conflict_phase (vm_type : String) (target_vmid : Nat) (dest_hostname : String)
    (targetExists force_overwrite destroyOk : Bool) : List MigAction × ConflictResult :=
  if targetExists then
    if force_overwrite then
      let stopCmd :=
        guestCmd vm_type ++ " stop " ++ toString target_vmid ++ " --skiplock 2>/dev/null || true"
      let destroyCmd :=
        guestCmd vm_type ++ " destroy " ++ toString target_vmid ++ " --purge --skiplock"
      let acts := [MigAction.remoteCmd dest_hostname stopCmd, MigAction.wait 3,
                   MigAction.remoteCmd dest_hostname destroyCmd]
      if destroyOk then (acts, .proceed) else (acts, .destroyFailed)
    else ([], .requiresConfirmation target_vmid)
  else ([], .proceed)

/-- `force_overwrite` used for scheduled migration runs:
`SchedulerService._execute_migration_job` (`scheduler.py`, lines
455-460) calls `execute_migration_job_task(job_id, triggered_by=None)`
whose `force_overwrite` parameter defaults to `True`
(`backend/routers/migration_jobs.py`, line 134). -/
def scheduled_migration_force_overwrite : Bool := true

/-- Staging-size estimate of `_copy_vm_with_backup`
(`migration_service.py`, lines 407-425).  The remote pipeline
`<qm|pct> config <vmid> | grep -E <disk lines> | grep -oP \d+G |
head -1` yields the *first* `<n>G` token of the guest config
(`sizesInConfig` lists those tokens in order of appearance); when
nothing is printed, or the output fails to parse, the default of 50 GB
is kept.  The sizes are not summed. -/
def estimate_size_gb (sizesInConfig : List Nat) : Nat :=
  match sizesInConfig with
  | [] => 50
  | s :: _ => s

/-- Ordered staging-directory candidates (`migration_service.py`, line
428). -/
def staging_candidates : List String := ["/var/lib/vz/dump", "/var/tmp", "/tmp"]

/-- Free-space test for one candidate (`migration_service.py`, lines
429-449): the `df -BG` probe must succeed and parse as a number
(`freeGb d = some a`) and satisfy `available_gb >= estimated_size_gb *
1.5`, written here in exact integer form. -/
def dir_qualifies (freeGb : String → Option Nat) (estimate : Nat) (d : String) : Bool :=
  match freeGb d with
  | some a => decide (3 * estimate ≤ 2 * a)
  | none => false

/-- Staging-directory choice (`migration_service.py`, lines 428-457):
the first qualifying candidate, in order. -/
def choose_staging_dir (freeGb : String → Option Nat) (estimate : Nat) : Option String :=
  staging_candidates.find? (dir_qualifies freeGb estimate)

/-- Outcome of the staging-selection phase. -/
inductive StagingResult where
  | chosen (dir : String)
  | insufficientSpace
deriving DecidableEq, Repr

/-- The for-else of `migration_service.py` (lines 428-457): when no
candidate qualifies the run returns the insufficient-space failure. -/
def select_staging (freeGb : String → Option Nat) (estimate : Nat) : StagingResult :=
  match choose_staging_dir freeGb estimate with
  | some d => .chosen d
  | none => .insufficientSpace

/-! ## Node deletion (`backend/routers/nodes.py`) -/

/-- Application state visible to the node-deletion endpoint: the node
ids present, the node ids referenced by migration jobs, and the node
ids referenced by sync or recovery jobs.
`MigrationJob.source_node_id`/`dest_node_id` are plain foreign keys
with no ORM relationship back to `Node` (`Node` in
`backend/database.py` declares relationships only for datasets, sync
jobs and recovery jobs), and the SQLite engine is created without
foreign-key enforcement, so deleting a node never touches migration
jobs.  Modelled from the spec: the `MigrationJob` table declaration is
missing from this snapshot of `backend/`; the specification states a
job belongs to its source and destination nodes by reference only. -/
structure NodesDB where
  nodes : List Nat
  migration_job_refs : List (Nat × Nat)
  sync_or_recovery_refs : List Nat
deriving DecidableEq, Repr

/-- Result of the `delete_node` endpoint. -/
inductive DeleteNodeResult where
  | notFound
  | integrityError
  | deleted (db : NodesDB) (message : String)
deriving DecidableEq, Repr

/-- `delete_node` (`backend/routers/nodes.py`, lines 343-366).  The
handler contains no reference check: it looks the node up (404 when
absent) and otherwise calls `db.delete(node)` and commits.  At flush
time SQLAlchemy processes the `Node` relationships: `datasets` cascade
away, while the sync- and recovery-job relationships (declared without
a delete cascade over NOT NULL foreign keys) make the flush try to
null the columns and raise an IntegrityError, surfacing as an
unhandled 500 with nothing persisted.  Migration-job (and
host-backup-job) references involve no relationship, so the delete
commits and leaves their foreign keys dangling. -/
def delete_node (db : NodesDB) (node_id : Nat) : DeleteNodeResult :=
  if node_id ∈ db.nodes then
    if node_id ∈ db.sync_or_recovery_refs then .integrityError
    else .deleted { db with nodes := db.nodes.erase node_id } "Nodo eliminato"
  else .notFound

/-! ## Host-config backup archive (`backend/services/host_backup_service.py`) -/

/-- Archive path and remote command produced by `create_host_backup`. -/
structure HostBackupCmd where
  backup_file : String
  cmd : String
deriving DecidableEq, Repr

/-- Archive base name `proxmox-<host_type>-config-<YYYYMMDD_HHMMSS>`
(`host_backup_service.py`, lines 174-175). -/
def host_backup_base_name (host_type timestamp : String) : String :=
  "proxmox-" ++ host_type ++ "-config-" ++ timestamp

/-- Archive name and remote command assembled by
`HostBackupService.create_host_backup` (`host_backup_service.py`, lines
206-219; shell quoting elided, `pathsStr` is the pre-joined list of
existing paths).  The branch order is the point: `.tar.gz.enc` with the
openssl pipe only when compression and encryption (with a password) are
both selected; otherwise `.tar.gz` when compression is selected;
otherwise a plain `.tar` with no encryption even when `encrypt` is
set. -/
def create_host_backup_cmd (dest_path base pathsStr : String)
    (compress encrypt : Bool) (encrypt_password : Option String) : HostBackupCmd :=
  if compress && encrypt && encrypt_password.isSome then
    let f := dest_path ++ "/" ++ base ++ ".tar.gz.enc"
    { backup_file := f,
      cmd := "tar czf - " ++ pathsStr ++
        " 2>/dev/null | openssl enc -aes-256-cbc -salt -pbkdf2 -pass pass:" ++
        encrypt_password.getD "" ++ " -out " ++ f }
  else if compress then
    let f := dest_path ++ "/" ++ base ++ ".tar.gz"
    { backup_file := f, cmd := "tar czf " ++ f ++ " " ++ pathsStr ++ " 2>/dev/null" }
  else
    let f := dest_path ++ "/" ++ base ++ ".tar"
    { backup_file := f, cmd := "tar cf " ++ f ++ " " ++ pathsStr ++ " 2>/dev/null" }

/-- The `encrypted` field of the result dict returned by
`create_host_backup` (`host_backup_service.py`, line 258): `encrypt
and encrypt_password is not None`, regardless of whether the assembled
command actually piped through openssl. -/
def host_backup_reports_encrypted (encrypt : Bool) (encrypt_password : Option String) : Bool :=
  encrypt && encrypt_password.isSome

/-! ## BTRFS sync snapshot retention (`backend/services/btrfs_service.py`) -/

/-- Byte-wise lexicographic comparison of file names, the order used by
`sort -r` over the snapshot listing (code points compared
numerically). -/
def lexLe : List Char → List Char → Bool
  | [], _ => true
  | _ :: _, [] => false
  | a :: as, b :: bs =>
    if a.toNat < b.toNat then true
    else if b.toNat < a.toNat then false
    else lexLe as bs

/-- `a` sorts no later than `b` in the `sort` order. -/
def name_le (a b : String) : Bool := lexLe a.data b.data

/-- `a` sorts strictly before `b`. -/
def name_lt (a b : String) : Bool := !name_le b a

/-- The descending comparator realising `sort -r`. -/
def name_desc (a b : String) : Prop := name_le b a = true

instance : DecidableRel name_desc :=
  fun a b => inferInstanceAs (Decidable (name_le b a = true))

/-- Whether a directory-entry name matches the glob `<vmid>_<disk>_*`
used by `find -name` in `list_snapshots`. -/
def name_matches (pfx s : String) : Bool := pfx.data.isPrefixOf s.data

/-- `BTRFSService.list_snapshots` (`btrfs_service.py`, lines 340-366):
`find <dir> -maxdepth 1 -name <vmid>_<disk>_* | sort -r` lists the
directory entries whose name begins with the job key, in descending
lexicographic order. -/
def list_snapshots (dir : List String) (pfx : String) : List String :=
  (dir.filter (fun s => name_matches pfx s)).insertionSort name_desc

/-- `BTRFSService._cleanup_old_snapshots` (`btrfs_service.py`, lines
605-638): when more than `max_snapshots` matching snapshots exist,
every snapshot past index `max_snapshots` of the descending listing is
deleted with `btrfs subvolume delete`; non-matching entries are never
touched. -/
def cleanup_old_snapshots (dir : List String) (pfx : String) (max_snapshots : Nat) :
    List String :=
  let snaps := list_snapshots dir pfx
  if max_snapshots < snaps.length then
    let toDelete := snaps.drop max_snapshots
    dir.filter (fun s => !toDelete.contains s)
  else dir

/-- Snapshot-directory effect of a successful `BTRFSService.run_sync`
(`btrfs_service.py`, lines 459-577): the new read-only snapshot
`<vmid>_<disk>_<timestamp>` is created in the source snapshot
directory, `btrfs send | ssh | btrfs receive` materialises the same
name in the destination snapshot directory, and
`_cleanup_old_snapshots` then runs on both sides with the job
`max_snapshots`. -/
def run_sync_snapshot_dirs (srcDir destDir : List String) (pfx newName : String)
    (max_snapshots : Nat) : List String × List String :=
  (cleanup_old_snapshots (newName :: srcDir) pfx max_snapshots,
   cleanup_old_snapshots (newName :: destDir) pfx max_snapshots)

/-- Whether any job (migration, or sync/recovery) references the node,
as the specification asks the deletion endpoint to check. -/
def node_referenced (db : NodesDB) (nid : Nat) : Bool :=
  db.migration_job_refs.any (fun r => r.1 = nid || r.2 = nid) ||
    db.sync_or_recovery_refs.contains nid

/-! ## Helper lemmas -/

theorem schedLookup_schedSet_ne (m : SchedMap) {k k2 : JobKey} (h : k ≠ k2) (v : Nat) :
    schedLookup (schedSet m k v) k2 = schedLookup m k2 := by
  induction m with
  | nil => simp [schedSet, schedLookup, h]
  | cons p rest ih =>
    obtain ⟨k3, v3⟩ := p
    by_cases hk : k3 = k
    · subst hk
      simp [schedSet, schedLookup, h]
    · simp [schedSet, schedLookup, hk, ih]

theorem schedLookup_schedErase_ne (m : SchedMap) {k k2 : JobKey} (h : k ≠ k2) :
    schedLookup (schedErase m k) k2 = schedLookup m k2 := by
  induction m with
  | nil => simp [schedErase, schedLookup]
  | cons p rest ih =>
    obtain ⟨k3, v3⟩ := p
    by_cases hk : k3 = k
    · subst hk
      simp [schedErase, schedLookup, h, ih]
    · simp [schedErase, schedLookup, hk, ih]

/-- Totality of the file-name order. -/
theorem lexLe_total : ∀ as bs : List Char, lexLe as bs = true ∨ lexLe bs as = true
  | [], _ => Or.inl rfl
  | _ :: _, [] => Or.inr rfl
  | a :: as, b :: bs => by
    simp only [lexLe]
    rcases Nat.lt_trichotomy a.toNat b.toNat with h | h | h
    · left
      simp [h]
    · have h2 : ¬ a.toNat < b.toNat := by omega
      have h3 : ¬ b.toNat < a.toNat := by omega
      simpa [h2, h3] using lexLe_total as bs
    · right
      simp [h]

/-- Transitivity of the file-name order. -/
theorem lexLe_trans : ∀ as bs cs : List Char,
    lexLe as bs = true → lexLe bs cs = true → lexLe as cs = true
  | [], _, _ => by intro _ _; rfl
  | _ :: _, [], _ => by intro h _; simp [lexLe] at h
  | _ :: _, _ :: _, [] => by intro _ h; simp [lexLe] at h
  | a :: as, b :: bs, c :: cs => by
    intro h1 h2
    simp only [lexLe] at h1 h2 ⊢
    rcases Nat.lt_trichotomy a.toNat b.toNat with hab | hab | hab
    · rcases Nat.lt_trichotomy b.toNat c.toNat with hbc | hbc | hbc
      · rw [if_pos (by omega)]
      · rw [if_pos (by omega)]
      · rw [if_neg (by omega), if_pos (by omega)] at h2
        cases h2
    · rcases Nat.lt_trichotomy b.toNat c.toNat with hbc | hbc | hbc
      · rw [if_pos (by omega)]
      · rw [if_neg (by omega), if_neg (by omega)] at h1
        rw [if_neg (by omega), if_neg (by omega)] at h2
        rw [if_neg (by omega), if_neg (by omega)]
        exact lexLe_trans as bs cs h1 h2
      · rw [if_neg (by omega), if_pos (by omega)] at h2
        cases h2
    · rw [if_neg (by omega), if_pos (by omega)] at h1
      cases h1

/-- The matching snapshots after a cleanup are, up to order, the first
`k` entries of the descending listing taken before the cleanup. -/
theorem cleanup_filter_perm (dir : List String) (pfx : String) (k : Nat)
    (hnd : dir.Nodup) :
    List.Perm ((cleanup_old_snapshots dir pfx k).filter (fun s => name_matches pfx s))
      ((list_snapshots dir pfx).take k) := by
  have hperm : List.Perm (list_snapshots dir pfx) (dir.filter (fun s => name_matches pfx s)) :=
    List.perm_insertionSort _ _
  have hndM : (dir.filter (fun s => name_matches pfx s)).Nodup := hnd.filter _
  have hnds : (list_snapshots dir pfx).Nodup := hperm.nodup_iff.mpr hndM
  unfold cleanup_old_snapshots
  by_cases hlen : k < (list_snapshots dir pfx).length
  · rw [if_pos hlen]
    have h1 : ((dir.filter (fun s => !((list_snapshots dir pfx).drop k).contains s)).filter
          (fun s => name_matches pfx s))
        = ((dir.filter (fun s => name_matches pfx s)).filter
            (fun s => !((list_snapshots dir pfx).drop k).contains s)) := by
      rw [List.filter_filter, List.filter_filter]
      exact List.filter_congr fun a _ => Bool.and_comm _ _
    rw [h1]
    have general : ∀ l td : List String, l.Nodup → td = l.drop k →
        l.filter (fun s => !td.contains s) = l.take k := by
      intro l td hl htd
      conv_lhs => rw [← List.take_append_drop k l]
      rw [List.filter_append]
      have hdisj2 : (l.take k).Disjoint (l.drop k) := by
        have h0 := hl
        rw [← List.take_append_drop k l, List.nodup_append] at h0
        exact h0.2.2
      have ht : (l.take k).filter (fun s => !td.contains s) = l.take k := by
        refine List.filter_eq_self.mpr fun a ha => ?_
        have hnot : a ∉ td := fun hmem => hdisj2 ha (htd ▸ hmem)
        simp [hnot]
      have hd : (l.drop k).filter (fun s => !td.contains s) = [] := by
        refine List.filter_eq_nil_iff.mpr fun a ha => ?_
        have hin : a ∈ td := htd ▸ ha
        simp [hin]
      rw [ht, hd, List.append_nil]
    have heq := general (list_snapshots dir pfx) ((list_snapshots dir pfx).drop k) hnds rfl
    exact heq ▸ hperm.symm.filter _
  · rw [if_neg hlen]
    have htake : (list_snapshots dir pfx).take k = list_snapshots dir pfx :=
      List.take_of_length_le (by omega)
    rw [htake]
    exact hperm.symm

/-- In the descending listing of a collection in which `a` sorts
strictly above every other element, `a` appears among the first `k ≥ 1`
entries. -/
theorem mem_take_insertionSort_of_max (l : List String) (a : String) (k : Nat)
    (hk : 1 ≤ k) (hmem : a ∈ l)
    (hmax : ∀ b ∈ l, b ≠ a → name_le a b = false) :
    a ∈ (l.insertionSort name_desc).take k := by
  haveI : IsTotal String name_desc := ⟨fun x y => lexLe_total y.data x.data⟩
  haveI : IsTrans String name_desc :=
    ⟨fun x y z hxy hyz => lexLe_trans z.data y.data x.data hyz hxy⟩
  have hperm := List.perm_insertionSort name_desc l
  have hsorted := List.sorted_insertionSort name_desc l
  have hmemS : a ∈ l.insertionSort name_desc := hperm.mem_iff.mpr hmem
  rcases hsort_eq : l.insertionSort name_desc with _ | ⟨h, t⟩
  · rw [hsort_eq] at hmemS
    cases hmemS
  · rw [hsort_eq] at hmemS hsorted hperm
    have hha2 : h = a := by
      by_contra hne
      have hhl : h ∈ l := hperm.subset (List.mem_cons_self h t)
      have hfalse : name_le a h = false := hmax h hhl hne
      have hat : a ∈ t := by
        rcases List.mem_cons.mp hmemS with rfl | hmem_t
        · exact absurd rfl hne
        · exact hmem_t
      have htrue : name_desc h a := List.rel_of_sorted_cons hsorted a hat
      rw [name_desc, hfalse] at htrue
      cases htrue
    obtain ⟨k2, rfl⟩ : ∃ k2, k = k2 + 1 := ⟨k - 1, by omega⟩
    rw [List.take_succ_cons]
    exact hha2 ▸ List.mem_cons_self h _

/-- Snapshot-retention facts for one side of one successful BTRFS sync:
after cleanup the matching snapshots are (a permutation of) the `k`
lexicographically greatest of the pre-cleanup listing, there are at
most `k` of them, and the freshly created snapshot — matching and
strictly newest — survives. -/
theorem cleanup_side (dir : List String) (pfx newName : String) (k : Nat)
    (hk : 1 ≤ k) (hmatch : name_matches pfx newName = true)
    (hnd : (newName :: dir).Nodup)
    (hmax : ∀ s ∈ dir, name_matches pfx s = true → name_lt s newName = true) :
    (List.Perm
        ((cleanup_old_snapshots (newName :: dir) pfx k).filter (fun s => name_matches pfx s))
        ((list_snapshots (newName :: dir) pfx).take k))
    ∧ ((cleanup_old_snapshots (newName :: dir) pfx k).filter
          (fun s => name_matches pfx s)).length ≤ k
    ∧ newName ∈ cleanup_old_snapshots (newName :: dir) pfx k := by
  have hfp := cleanup_filter_perm (newName :: dir) pfx k hnd
  refine ⟨hfp, ?_, ?_⟩
  · rw [hfp.length_eq]
    exact List.length_take_le _ _
  · have hfilter_eq : (newName :: dir).filter (fun s => name_matches pfx s)
        = newName :: dir.filter (fun s => name_matches pfx s) :=
      List.filter_cons_of_pos hmatch
    have hmem_take : newName ∈ (list_snapshots (newName :: dir) pfx).take k := by
      unfold list_snapshots
      rw [hfilter_eq]
      refine mem_take_insertionSort_of_max _ _ _ hk (List.mem_cons_self _ _) fun b hb hne => ?_
      have hb2 : b ∈ dir.filter (fun s => name_matches pfx s) := by
        rcases List.mem_cons.mp hb with rfl | hb2
        · exact absurd rfl hne
        · exact hb2
      have hlt := hmax b (List.mem_of_mem_filter hb2)
        (List.of_mem_filter (p := fun s : String => name_matches pfx s) hb2)
      rw [name_lt] at hlt
      simpa using hlt
    exact List.mem_of_mem_filter (hfp.mem_iff.mpr hmem_take)

/-! ## Claim theorems -/

/-- C10: the dispatch loop keeps next-fire times under the string keys
`sync_<id>`, `host_backup_<id>` and `migration_<id>`, while
`update_job_schedule` and `remove_job` operate on the bare integer key;
hence neither call ever changes or removes any entry the dispatch loop
consults, for any job id and any schedule value. -/
theorem c10_update_job_schedule_misses_dispatch_keys (m : SchedMap)
    (job_id jid2 : Nat) (schedule : String) (cronNext : Nat) :
    (schedLookup (update_job_schedule m job_id schedule cronNext) (JobKey.syncKey jid2)
        = schedLookup m (JobKey.syncKey jid2))
    ∧ (schedLookup (update_job_schedule m job_id schedule cronNext) (JobKey.hostBackupKey jid2)
        = schedLookup m (JobKey.hostBackupKey jid2))
    ∧ (schedLookup (update_job_schedule m job_id schedule cronNext) (JobKey.migrationKey jid2)
        = schedLookup m (JobKey.migrationKey jid2))
    ∧ (schedLookup (remove_job m job_id) (JobKey.syncKey jid2)
        = schedLookup m (JobKey.syncKey jid2))
    ∧ (schedLookup (remove_job m job_id) (JobKey.hostBackupKey jid2)
        = schedLookup m (JobKey.hostBackupKey jid2))
    ∧ (schedLookup (remove_job m job_id) (JobKey.migrationKey jid2)
        = schedLookup m (JobKey.migrationKey jid2)) := by
  unfold update_job_schedule remove_job
  refine ⟨?_, ?_, ?_, ?_, ?_, ?_⟩ <;>
    first
      | (split <;>
          [exact schedLookup_schedSet_ne m (by intro h; cases h) _;
           exact schedLookup_schedErase_ne m (by intro h; cases h)])
      | exact schedLookup_schedErase_ne m (by intro h; cases h)

/-- C1 counterexample: a sync job whose `last_status` is `running` and
whose next fire time has passed IS dispatched by the scheduler loop —
the scheduled dispatch is not dropped, no running-state check exists in
`_check_and_run_jobs`. -/
theorem c1_counterexample :
    (check_and_run_sync_job [(JobKey.syncKey 1, 5)] 1
      { is_active := true, schedule := some "*/5 * * * *", last_run := some 0,
        last_status := some "running", run_count := 3, error_count := 0,
        consecutive_failures := 0, retry_on_failure := true, max_retries := 3,
        retry_delay_minutes := 15 } 10 15 15).1 = true := by
  decide

/-- C1 (amended): the manual triggers for migration and recovery jobs
reject a running job with the explicit error `Job gia in esecuzione`,
but the scheduler dispatch loop performs no single-flight check at all:
its behaviour is independent of `last_status` (and of the retry
columns), so a scheduled dispatch of a running job is not dropped. -/
theorem c1_single_flight_amended (m : SchedMap) (job_id : Nat) (job : SyncJob)
    (now cronAnchor cronAdvance : Nat) (st : Option String) (rof : Bool) (mr rdm : Nat) :
    (check_and_run_sync_job m job_id
        { job with last_status := st, retry_on_failure := rof,
                   max_retries := mr, retry_delay_minutes := rdm }
        now cronAnchor cronAdvance
      = check_and_run_sync_job m job_id job now cronAnchor cronAdvance)
    ∧ run_migration_job_guard (some "running") = .error "Job gia in esecuzione"
    ∧ run_recovery_job_guard .backing_up = .error "Job gia in esecuzione"
    ∧ run_recovery_job_guard .restoring = .error "Job gia in esecuzione"
    ∧ run_recovery_job_guard .registering = .error "Job gia in esecuzione" := by
  exact ⟨rfl, rfl, rfl, rfl, rfl⟩

/-- C2 counterexample: a sync job whose last run failed, with
`retry_on_failure = false` and `consecutive_failures ≥ max_retries`, is
nevertheless dispatched again at the next scheduled tick — the retry
gate of the claim does not exist in the scheduler. -/
theorem c2_counterexample :
    (check_and_run_sync_job [(JobKey.syncKey 7, 60)] 7
      { is_active := true, schedule := some "0 * * * *", last_run := some 0,
        last_status := some "failed", run_count := 4, error_count := 4,
        consecutive_failures := 4, retry_on_failure := false, max_retries := 3,
        retry_delay_minutes := 15 } 60 120 120).1 = true
    ∧ ¬ ((false : Bool) = true ∧ 4 < 3) := by
  exact ⟨by decide, by decide⟩

/-- C2 (amended): the pipeline drivers perform no retry of their own,
and the scheduler re-dispatches a due job at the next cron tick
unconditionally: whenever the job is active with a non-empty schedule
and its stored next-fire time has passed, the run is dispatched and the
next-fire entry becomes the plain cron advance — `retry_on_failure`,
`max_retries`, `retry_delay_minutes`, `consecutive_failures` and
`last_status` (all arbitrary in `job` here) are never consulted and no
`retry_delay_minutes` displacement occurs. -/
theorem c2_retry_policy_amended (m : SchedMap) (job_id : Nat) (job : SyncJob)
    (now cronAnchor cronAdvance next : Nat)
    (hactive : job.is_active = true)
    (hsched : job.schedule ≠ none ∧ job.schedule ≠ some "")
    (hlook : schedLookup m (JobKey.syncKey job_id) = some next)
    (hdue : next ≤ now) :
    check_and_run_sync_job m job_id job now cronAnchor cronAdvance
      = (true, schedSet m (JobKey.syncKey job_id) cronAdvance) := by
  unfold check_and_run_sync_job
  rw [if_pos ⟨hactive, hsched.1, hsched.2⟩]
  simp only [hlook]
  rw [if_pos hdue]

/-- Witness for `c2_retry_policy_amended` at a concrete state. -/
theorem c2_retry_policy_amended_witness :
    check_and_run_sync_job [(JobKey.syncKey 7, 60)] 7
      { is_active := true, schedule := some "0 * * * *", last_run := some 0,
        last_status := some "failed", run_count := 4, error_count := 4,
        consecutive_failures := 4, retry_on_failure := false, max_retries := 3,
        retry_delay_minutes := 15 } 61 120 120
      = (true, [(JobKey.syncKey 7, 120)]) := by
  have h := c2_retry_policy_amended [(JobKey.syncKey 7, 60)] 7
    { is_active := true, schedule := some "0 * * * *", last_run := some 0,
      last_status := some "failed", run_count := 4, error_count := 4,
      consecutive_failures := 4, retry_on_failure := false, max_retries := 3,
      retry_delay_minutes := 15 } 61 120 120 60 rfl (by decide) rfl (by decide)
  simpa [schedSet] using h

/-- C3 counterexample: on the ZFS-sync scheduler path `_execute_job`,
a failed run leaves `consecutive_failures` unchanged (not strictly
greater), and a successful run does not reset it to 0. -/
theorem c3_counterexample :
    ((scheduler_execute_sync_job
        { is_active := true, schedule := some "0 * * * *", last_run := none,
          last_status := some "success", run_count := 5, error_count := 2,
          consecutive_failures := 2, retry_on_failure := true, max_retries := 3,
          retry_delay_minutes := 15 } false).consecutive_failures = 2)
    ∧ ¬ (2 < (scheduler_execute_sync_job
        { is_active := true, schedule := some "0 * * * *", last_run := none,
          last_status := some "success", run_count := 5, error_count := 2,
          consecutive_failures := 2, retry_on_failure := true, max_retries := 3,
          retry_delay_minutes := 15 } false).consecutive_failures)
    ∧ ((scheduler_execute_sync_job
        { is_active := true, schedule := some "0 * * * *", last_run := none,
          last_status := some "success", run_count := 5, error_count := 2,
          consecutive_failures := 2, retry_on_failure := true, max_retries := 3,
          retry_delay_minutes := 15 } true).consecutive_failures ≠ 0) := by
  exact ⟨by decide, by decide, by decide⟩

/-- C3 (amended): the migration and recovery pipelines maintain the
invariant — `consecutive_failures` is 0 after success and exactly one
more than before after failure — while the ZFS-sync scheduler pipeline
and the host-config backup pipeline never write the field at all. -/
theorem c3_consecutive_failures_amended :
    (∀ job : MigrationJob,
      (execute_migration_job_task job .succeeded).consecutive_failures = 0
      ∧ (execute_migration_job_task job .failed).consecutive_failures
          = job.consecutive_failures + 1)
    ∧ (∀ job : RecoveryJob,
      (execute_recovery_job_task job .completed).consecutive_failures = 0
      ∧ (execute_recovery_job_task job .backupFailed).consecutive_failures
          = job.consecutive_failures + 1
      ∧ (execute_recovery_job_task job .restoreFailed).consecutive_failures
          = job.consecutive_failures + 1)
    ∧ (∀ (job : SyncJob) (b : Bool),
      (scheduler_execute_sync_job job b).consecutive_failures = job.consecutive_failures)
    ∧ (∀ (job : HostBackupJob) (b : Bool),
      (execute_host_backup_job job b).consecutive_failures = job.consecutive_failures) := by
  refine ⟨fun job => ⟨rfl, rfl⟩, fun job => ⟨rfl, rfl, rfl⟩,
    fun job b => ?_, fun job b => ?_⟩ <;> cases b <;> rfl

/-- C4 counterexample: a manual trigger arriving with
`current_status = completed` — a state other than `pending` — is not
rejected: the run is started. -/
theorem c4_counterexample :
    run_recovery_job_guard .completed = .ok ()
    ∧ RecoveryJobStatus.completed ≠ .pending := by
  exact ⟨rfl, by decide⟩

/-- C4 (amended): the trigger of `run_recovery_job` is rejected with
the already-in-execution error exactly when `current_status` is one of
the transient states `backing_up`, `restoring`, `registering`; a run
may be started from `pending`, `completed` and `failed`. -/
theorem c4_recovery_trigger_states (s : RecoveryJobStatus) :
    (run_recovery_job_guard s = .error "Job gia in esecuzione"
      ↔ (s = .backing_up ∨ s = .restoring ∨ s = .registering))
    ∧ (run_recovery_job_guard s = .ok ()
      ↔ (s = .pending ∨ s = .completed ∨ s = .failed)) := by
  cases s <;> simp [run_recovery_job_guard]

/-- C5: in copy mode with the target VMID present on the destination,
no `force_overwrite` yields the distinguished `requires_confirmation`
result carrying the existing VM id with no destructive action issued;
with `force_overwrite` (the default `True` used for scheduled runs) the
guest is stopped with `--skiplock`, 3 seconds elapse, and it is
destroyed with `--purge --skiplock` before the copy proceeds.  The
confirmation branch is not a failure: it is a distinct result
constructor and `execute_migration_job_task` returns it without
updating the job record. -/
theorem c5_copy_conflict_branches (vm_type : String) (target_vmid : Nat) (dest : String) :
    (copy_conflict_phase vm_type target_vmid dest true false false
        = ([], .requiresConfirmation target_vmid))
    ∧ (copy_conflict_phase vm_type target_vmid dest true false true
        = ([], .requiresConfirmation target_vmid))
    ∧ (copy_conflict_phase vm_type target_vmid dest true true true
        = ([MigAction.remoteCmd dest
              (guestCmd vm_type ++ " stop " ++ toString target_vmid ++
                " --skiplock 2>/dev/null || true"),
            MigAction.wait 3,
            MigAction.remoteCmd dest
              (guestCmd vm_type ++ " destroy " ++ toString target_vmid ++
                " --purge --skiplock")],
           .proceed))
    ∧ (∀ n, ConflictResult.requiresConfirmation n ≠ .destroyFailed)
    ∧ scheduled_migration_force_overwrite = true
    ∧ (∀ job : MigrationJob, execute_migration_job_task job .confirmationNeeded = job) := by
  refine ⟨rfl, rfl, rfl, fun n h => ?_, rfl, fun job => rfl⟩
  cases h

/-- C6 counterexample: a node referenced by a migration job is
hard-deleted successfully by `delete_node` — the reference does not
cause a rejection, and the job is left pointing at a vanished node. -/
theorem c6_counterexample :
    node_referenced ⟨[1, 2], [(1, 2)], []⟩ 1 = true
    ∧ delete_node ⟨[1, 2], [(1, 2)], []⟩ 1
        = .deleted ⟨[2], [(1, 2)], []⟩ "Nodo eliminato" := by
  exact ⟨by decide, by decide⟩

/-- C6 (amended): `delete_node` performs no application-level reference
check.  A missing node yields 404; a node referenced by sync or
recovery jobs makes the ORM flush raise (an unhandled 500, nothing
persisted); any other node — including one referenced by migration or
host-backup jobs — is hard-deleted, the job references left
dangling. -/
theorem c6_delete_node_amended (db : NodesDB) (nid : Nat) :
    (nid ∉ db.nodes → delete_node db nid = .notFound)
    ∧ (nid ∈ db.nodes → nid ∈ db.sync_or_recovery_refs →
        delete_node db nid = .integrityError)
    ∧ (nid ∈ db.nodes → nid ∉ db.sync_or_recovery_refs →
        delete_node db nid
          = .deleted { db with nodes := db.nodes.erase nid } "Nodo eliminato") := by
  refine ⟨fun h => ?_, fun h1 h2 => ?_, fun h1 h2 => ?_⟩
  · simp [delete_node, h]
  · simp [delete_node, h1, h2]
  · simp [delete_node, h1, h2]

/-- Witness for `c6_delete_node_amended` at a concrete state. -/
theorem c6_delete_node_amended_witness :
    delete_node ⟨[1, 2], [(1, 2)], []⟩ 1
      = .deleted ⟨[2], [(1, 2)], []⟩ "Nodo eliminato" := by
  have h := (c6_delete_node_amended ⟨[1, 2], [(1, 2)], []⟩ 1).2.2 (by decide) (by decide)
  simpa using h

/-- C7 counterexample: with disk sizes 10G and 20G in the guest config
the staging-size estimate of the code is the first size, 10, not the
sum 30. -/
theorem c7_counterexample :
    estimate_size_gb [10, 20] = 10
    ∧ List.sum [10, 20] = 30
    ∧ estimate_size_gb [10, 20] ≠ List.sum [10, 20] := by
  exact ⟨rfl, rfl, by decide⟩

/-- C7 (amended): the staging-size estimate is the *first* disk size
token found in the guest config (50 GB when none is found), not the
sum; the staging directory is the first of `/var/lib/vz/dump`,
`/var/tmp`, `/tmp` whose reported free space is at least 1.5 times the
estimate; when no candidate qualifies the phase fails with the
insufficient-space error. -/
theorem c7_staging_amended (freeGb : String → Option Nat) (sizes : List Nat) :
    (estimate_size_gb [] = 50)
    ∧ (∀ (s : Nat) (rest : List Nat), estimate_size_gb (s :: rest) = s)
    ∧ (choose_staging_dir freeGb (estimate_size_gb sizes)
        = (if dir_qualifies freeGb (estimate_size_gb sizes) "/var/lib/vz/dump"
             then some "/var/lib/vz/dump"
           else if dir_qualifies freeGb (estimate_size_gb sizes) "/var/tmp"
             then some "/var/tmp"
           else if dir_qualifies freeGb (estimate_size_gb sizes) "/tmp"
             then some "/tmp"
           else none))
    ∧ (choose_staging_dir freeGb (estimate_size_gb sizes) = none →
        select_staging freeGb (estimate_size_gb sizes) = .insufficientSpace) := by
  refine ⟨rfl, fun s rest => rfl, ?_, fun h => ?_⟩
  · unfold choose_staging_dir staging_candidates
    cases h1 : dir_qualifies freeGb (estimate_size_gb sizes) "/var/lib/vz/dump" <;>
      cases h2 : dir_qualifies freeGb (estimate_size_gb sizes) "/var/tmp" <;>
        cases h3 : dir_qualifies freeGb (estimate_size_gb sizes) "/tmp" <;>
          simp [List.find?, h1, h2, h3]
  · unfold select_staging
    rw [h]

/-- Witness for `c7_staging_amended`: no probe succeeds, so no
candidate qualifies and the phase reports insufficient space. -/
theorem c7_staging_amended_witness :
    select_staging (fun _ => none) (estimate_size_gb []) = .insufficientSpace := by
  exact (c7_staging_amended (fun _ => none) []).2.2.2 rfl

/-- C8: evidence of the code bug at the failing input
`compress = False`, `encrypt = True`, password given — the assembled
remote command is a plain uncompressed tar with no openssl stage and
the archive name ends in `.tar`, while the result metadata of the very
same function reports the backup as encrypted.  (With compression also
selected the `.tar.gz.enc` branch behaves as specified.) -/
theorem c8_encrypt_without_compress_bug :
    (create_host_backup_cmd "/var/backups/proxmox-config"
        (host_backup_base_name "pve" "20250101_000000") "/etc/pve" false true (some "pw")
      = { backup_file := "/var/backups/proxmox-config/proxmox-pve-config-20250101_000000.tar",
          cmd := "tar cf /var/backups/proxmox-config/proxmox-pve-config-20250101_000000.tar /etc/pve 2>/dev/null" })
    ∧ host_backup_reports_encrypted true (some "pw") = true
    ∧ (create_host_backup_cmd "/var/backups/proxmox-config"
        (host_backup_base_name "pve" "20250101_000000") "/etc/pve" true true (some "pw")
      = { backup_file :=
            "/var/backups/proxmox-config/proxmox-pve-config-20250101_000000.tar.gz.enc",
          cmd := "tar czf - /etc/pve 2>/dev/null | openssl enc -aes-256-cbc -salt -pbkdf2 -pass pass:pw -out /var/backups/proxmox-config/proxmox-pve-config-20250101_000000.tar.gz.enc" }) := by
  exact ⟨rfl, rfl, rfl⟩

/-- C9: after a successful BTRFS sync run creating the snapshot
`newName` (timestamp-suffixed, hence lexicographically above every
existing matching snapshot) and pruning both sides to `k =
max_snapshots ≥ 1`, the source and destination snapshot directories
each hold at most `k` snapshots matching the job key, the retained
matching snapshots are exactly the `k` lexicographically greatest of
the post-transfer listing, and the freshly transferred snapshot is
present on both sides — a common base for the next incremental run. -/
theorem c9_btrfs_retention (srcDir destDir : List String) (pfx newName : String) (k : Nat)
    (hk : 1 ≤ k) (hmatch : name_matches pfx newName = true)
    (hndS : (newName :: srcDir).Nodup) (hndD : (newName :: destDir).Nodup)
    (hmaxS : ∀ s ∈ srcDir, name_matches pfx s = true → name_lt s newName = true)
    (hmaxD : ∀ s ∈ destDir, name_matches pfx s = true → name_lt s newName = true) :
    (((run_sync_snapshot_dirs srcDir destDir pfx newName k).1.filter
        (fun s => name_matches pfx s)).length ≤ k)
    ∧ (((run_sync_snapshot_dirs srcDir destDir pfx newName k).2.filter
        (fun s => name_matches pfx s)).length ≤ k)
    ∧ (List.Perm
        ((run_sync_snapshot_dirs srcDir destDir pfx newName k).1.filter
          (fun s => name_matches pfx s))
        ((list_snapshots (newName :: srcDir) pfx).take k))
    ∧ (List.Perm
        ((run_sync_snapshot_dirs srcDir destDir pfx newName k).2.filter
          (fun s => name_matches pfx s))
        ((list_snapshots (newName :: destDir) pfx).take k))
    ∧ newName ∈ (run_sync_snapshot_dirs srcDir destDir pfx newName k).1
    ∧ newName ∈ (run_sync_snapshot_dirs srcDir destDir pfx newName k).2 := by
  obtain ⟨pS, lS, mS⟩ := cleanup_side srcDir pfx newName k hk hmatch hndS hmaxS
  obtain ⟨pD, lD, mD⟩ := cleanup_side destDir pfx newName k hk hmatch hndD hmaxD
  exact ⟨lS, lD, pS, pD, mS, mD⟩

/-- Witness for `c9_btrfs_retention` at a concrete pair of snapshot
directories. -/
theorem c9_btrfs_retention_witness :
    (((run_sync_snapshot_dirs ["100_scsi0_a1", "100_scsi0_a2", "other"] ["100_scsi0_a2"]
        "100_scsi0_" "100_scsi0_a3" 2).1.filter
          (fun s => name_matches "100_scsi0_" s)).length ≤ 2)
    ∧ (((run_sync_snapshot_dirs ["100_scsi0_a1", "100_scsi0_a2", "other"] ["100_scsi0_a2"]
        "100_scsi0_" "100_scsi0_a3" 2).2.filter
          (fun s => name_matches "100_scsi0_" s)).length ≤ 2)
    ∧ (List.Perm
        ((run_sync_snapshot_dirs ["100_scsi0_a1", "100_scsi0_a2", "other"] ["100_scsi0_a2"]
          "100_scsi0_" "100_scsi0_a3" 2).1.filter (fun s => name_matches "100_scsi0_" s))
        ((list_snapshots ["100_scsi0_a3", "100_scsi0_a1", "100_scsi0_a2", "other"]
          "100_scsi0_").take 2))
    ∧ (List.Perm
        ((run_sync_snapshot_dirs ["100_scsi0_a1", "100_scsi0_a2", "other"] ["100_scsi0_a2"]
          "100_scsi0_" "100_scsi0_a3" 2).2.filter (fun s => name_matches "100_scsi0_" s))
        ((list_snapshots ["100_scsi0_a3", "100_scsi0_a2"] "100_scsi0_").take 2))
    ∧ "100_scsi0_a3" ∈ (run_sync_snapshot_dirs ["100_scsi0_a1", "100_scsi0_a2", "other"]
        ["100_scsi0_a2"] "100_scsi0_" "100_scsi0_a3" 2).1
    ∧ "100_scsi0_a3" ∈ (run_sync_snapshot_dirs ["100_scsi0_a1", "100_scsi0_a2", "other"]
        ["100_scsi0_a2"] "100_scsi0_" "100_scsi0_a3" 2).2 :=
  c9_btrfs_retention ["100_scsi0_a1", "100_scsi0_a2", "other"] ["100_scsi0_a2"]
    "100_scsi0_" "100_scsi0_a3" 2 (by decide) (by decide) (by decide) (by decide)
    (by decide) (by decide)

end Dapx
